import Mathlib

/-!
Verification of the civic-llm-project conversational agent core.

The Python source is shallowly embedded below.  Python `float` arithmetic on
the small decimal constants involved (0.1, 0.2, ..., 1.0) is modelled exactly
over `ℚ`; dictionaries become association lookups returning `Option`, with
`Option.getD` embedding `dict.get(key, default)`; `try/except` blocks around
external LLM/HTTP calls are modelled by threading an explicit environment of
call outcomes (`Option`/`Except` values) through the pipeline, where `none`
(resp. `.error`) stands for "the call raised or its JSON reply was
undecodable"; raising paths return an explicit error value.
-/

/-! ## hallucination_prevention.py — UncertaintyCalibrator -/

/-- `source_scores` dictionary of `UncertaintyCalibrator.calculate_confidence`. -/
def source_scores (source_quality : String) : Option ℚ :=
  if source_quality = "primary" then some (9/10)
  else if source_quality = "secondary" then some (7/10)
  else if source_quality = "analysis" then some (1/2)
  else if source_quality = "speculation" then some (3/10)
  else if source_quality = "unknown" then some (1/5)
  else none

/-- `consensus_adjustments` dictionary of `calculate_confidence`. -/
def consensus_adjustments (consensus_level : String) : Option ℚ :=
  if consensus_level = "universal" then some (1/5)
  else if consensus_level = "broad" then some (1/10)
  else if consensus_level = "divided" then some (-(1/10))
  else if consensus_level = "controversial" then some (-(1/5))
  else if consensus_level = "unknown" then some 0
  else none

/-- Temporal degradation branch of `calculate_confidence`
(`temporal_relevance` is the age in days). -/
def temporal_factor (temporal_relevance : Int) : ℚ :=
  if temporal_relevance < 7 then 0
  else if temporal_relevance < 30 then -(1/10)
  else if temporal_relevance < 180 then -(1/5)
  else -(3/10)

/-- `UncertaintyCalibrator.calculate_confidence` (hallucination_prevention.py).
`source_scores.get(source_quality, 0.5)` and
`consensus_adjustments.get(consensus_level, 0)` become `Option.getD`. -/
def calculate_confidence (source_quality : String) (temporal_relevance : Int)
    (consensus_level : String) : ℚ :=
  let base_confidence := (source_scores source_quality).getD (1/2)
  let consensus_factor := (consensus_adjustments consensus_level).getD 0
  max 0 (min 1 (base_confidence + temporal_factor temporal_relevance + consensus_factor))

/-- `UncertaintyCalibrator.express_uncertainty`: wraps `statement` between the
band's two marker strings, chosen by strict `>` comparisons on `confidence`. -/
def express_uncertainty (confidence : ℚ) (statement : String) : String :=
  if confidence > 8/10 then
    "Based on verified sources, " ++ statement ++ ""
  else if confidence > 6/10 then
    "Available evidence suggests that " ++ statement ++ ""
  else if confidence > 4/10 then
    "While there is some uncertainty, " ++ statement ++ " (though this should be verified)"
  else if confidence > 2/10 then
    "With limited confidence, it appears that " ++ statement ++ " (this remains largely unconfirmed)"
  else
    "I cannot reliably confirm this, but " ++ statement ++ " (please treat this as speculative)"

/-! ## boundary_management.py — ConversationFlowManager -/

/-- One record appended by `update_flow_state`; `datetime.now()` is modelled
as an abstract timestamp supplied by the caller. -/
structure FlowRecord where
  query : String
  response_type : String
  success : Bool
  timestamp : Nat
deriving Repr, DecidableEq

/-- State of `ConversationFlowManager`; `topic_tracking` is an (ordered)
association list standing for the Python dict. -/
structure ConversationFlowManager where
  state_history : List FlowRecord
  topic_tracking : List (String × Nat)
  engagement_score : ℚ
deriving Repr, DecidableEq

/-- `ConversationFlowManager.__init__`. -/
def ConversationFlowManager.init : ConversationFlowManager :=
  { state_history := [], topic_tracking := [], engagement_score := 1 }

/-- `ConversationFlowManager.update_flow_state`.  The engagement-score
arithmetic is modelled over exact `ℚ`, an idealization of the Python binary
floats (there, 0.8 - 0.2 = 0.6000000000000001, and repeated subtraction only
approaches round decimals); theorems about this definition are therefore
stated so that they also hold of the float trace — as inequalities, or at
values such as the cap 1.0 where min/max make the float arithmetic exact. -/
def update_flow_state (m : ConversationFlowManager) (query response_type : String)
    (success : Bool) (now : Nat) : ConversationFlowManager :=
  { m with
    state_history := m.state_history ++ [⟨query, response_type, success, now⟩],
    engagement_score :=
      if success then min 1 (m.engagement_score + 1/10)
      else max 0 (m.engagement_score - 1/5) }

/-- Iterate `update_flow_state` with a fixed outcome `success`, queries and
timestamps supplied per step. -/
def iterate_flow (m : ConversationFlowManager) (q r : Nat → String) (t : Nat → Nat)
    (success : Bool) : Nat → ConversationFlowManager
  | 0 => m
  | n + 1 => update_flow_state (iterate_flow m q r t success n) (q n) (r n) success (t n)

/-! ## Spec-side definitions for claim C1 (from the spec's words, to be
compared with `calculate_confidence` as embedded from the source) -/

/-- The five admissible source qualities named by the spec. -/
inductive SourceQuality | primary | secondary | analysis | speculation | unknown
deriving Repr, DecidableEq

/-- The five admissible consensus levels named by the spec. -/
inductive ConsensusLevel | universal | broad | divided | controversial | unknown
deriving Repr, DecidableEq

def SourceQuality.toKey : SourceQuality → String
  | .primary => "primary"
  | .secondary => "secondary"
  | .analysis => "analysis"
  | .speculation => "speculation"
  | .unknown => "unknown"

def ConsensusLevel.toKey : ConsensusLevel → String
  | .universal => "universal"
  | .broad => "broad"
  | .divided => "divided"
  | .controversial => "controversial"
  | .unknown => "unknown"

/-- Spec-side base table: primary=0.9, secondary=0.7, analysis=0.5,
speculation=0.3, unknown=0.2. -/
def SourceQuality.base : SourceQuality → ℚ
  | .primary => 9/10
  | .secondary => 7/10
  | .analysis => 1/2
  | .speculation => 3/10
  | .unknown => 1/5

/-- Spec-side consensus delta table: universal=+0.2, broad=+0.1, divided=-0.1,
controversial=-0.2, unknown=0. -/
def ConsensusLevel.delta : ConsensusLevel → ℚ
  | .universal => 1/5
  | .broad => 1/10
  | .divided => -(1/10)
  | .controversial => -(1/5)
  | .unknown => 0

/-- Spec-side temporal penalty: 0 if age<7, -0.1 if age<30, -0.2 if age<180,
else -0.3. -/
def spec_temporal_penalty (age : Int) : ℚ :=
  if age < 7 then 0
  else if age < 30 then -(1/10)
  else if age < 180 then -(1/5)
  else -(3/10)

/-- Spec-side confidence formula: clamp(base + temporal_penalty + consensus_delta, 0, 1). -/
def spec_confidence (q : SourceQuality) (age : Int) (c : ConsensusLevel) : ℚ :=
  max 0 (min 1 (q.base + spec_temporal_penalty age + c.delta))

example : calculate_confidence "secondary" 7 "divided" = 1/2 := by
  simp +decide only [calculate_confidence, source_scores, consensus_adjustments, temporal_factor]
  norm_num [min_def, max_def]
example : (iterate_flow .init (fun _ => "q") (fun _ => "r") (fun n => n) false 3).engagement_score = 2/5 := by
  norm_num [iterate_flow, update_flow_state, ConversationFlowManager.init, min_def, max_def]
example : express_uncertainty (8/10) "X" = "Available evidence suggests that X" := by
  have h : ¬((8:ℚ)/10 > 8/10) := by norm_num
  have h2 : ((8:ℚ)/10 > 6/10) := by norm_num
  simp [express_uncertainty, h, h2]

/-! ## Claims C1 - C5 -/

/-- Helper: the temporal degradation of `calculate_confidence` is antitone in
the age (and hence non-increasing as the age bucket increases). -/
lemma temporal_factor_antitone (a1 a2 : Int) (h : a1 ≤ a2) :
    temporal_factor a2 ≤ temporal_factor a1 := by
  unfold temporal_factor
  split_ifs <;> try norm_num
  all_goals omega

/-- C1: for every admissible source quality, every integer age and every
admissible consensus level, `UncertaintyCalibrator.calculate_confidence`
returns clamp(base + temporal_penalty + consensus_delta, 0, 1) with the
base/penalty/delta tables stated by the spec.  The embedded function is a
total Lean function on its inputs, hence pure and deterministic with no
failure mode. -/
theorem claim_C1 (q : SourceQuality) (age : Int) (c : ConsensusLevel) :
    calculate_confidence q.toKey age c.toKey = spec_confidence q age c := by
  cases q <;> cases c <;>
    simp +decide only [calculate_confidence, source_scores, consensus_adjustments,
      spec_confidence, SourceQuality.toKey, ConsensusLevel.toKey,
      SourceQuality.base, ConsensusLevel.delta, if_true, if_false, Option.getD_some,
      temporal_factor, spec_temporal_penalty]

/-- C2: `calculate_confidence` is monotone non-increasing in the age (hence in
the age bucket, the buckets being intervals in increasing age order) with the
other two arguments fixed, and its output always lies in [0,1]; this holds in
particular for the 5×4×5 combinations of table keys and age buckets. -/
theorem claim_C2 (q c : String) :
    (∀ a : Int, 0 ≤ calculate_confidence q a c ∧ calculate_confidence q a c ≤ 1) ∧
    (∀ a1 a2 : Int, a1 ≤ a2 → calculate_confidence q a2 c ≤ calculate_confidence q a1 c) := by
  constructor
  · intro a
    unfold calculate_confidence
    refine ⟨le_max_left 0 _, max_le (by norm_num) (min_le_left 1 _)⟩
  · intro a1 a2 h
    unfold calculate_confidence
    have ht := temporal_factor_antitone a1 a2 h
    exact max_le_max le_rfl (min_le_min le_rfl (by linarith))

/-- Witness for C2 at a concrete instance: age 200 versus age 0 for a primary
source under universal consensus. -/
theorem claim_C2_witness :
    calculate_confidence "primary" 200 "universal" ≤ calculate_confidence "primary" 0 "universal" ∧
    0 ≤ calculate_confidence "primary" 200 "universal" :=
  ⟨(claim_C2 "primary" "universal").2 0 200 (by norm_num),
   ((claim_C2 "primary" "universal").1 200).1⟩

/-- Counterexample to C3: at the boundary 0.8 the strict `>` comparisons of
`express_uncertainty` select the band below, not the higher band with the
marker string "Based on verified sources, ". -/
theorem claim_C3_cex :
    express_uncertainty (8/10) "X" = "Available evidence suggests that X" ∧
    express_uncertainty (8/10) "X" ≠ "Based on verified sources, " ++ "X" := by
  have h : ¬((8:ℚ)/10 > 8/10) := by norm_num
  have h2 : ((8:ℚ)/10 > 6/10) := by norm_num
  constructor
  · simp [express_uncertainty, h, h2]
  · simp [express_uncertainty, h, h2]

/-- C3 amended: for every statement, a confidence exactly at a threshold
boundary (0.8, 0.6, 0.4 or 0.2) is wrapped with the markers of the lower of
the two adjacent bands, the comparisons being strict; in particular
`express_uncertainty 0.8 s` uses the marker "Available evidence suggests that ". -/
theorem claim_C3 (s : String) :
    express_uncertainty (8/10) s = "Available evidence suggests that " ++ s ∧
    express_uncertainty (6/10) s =
      "While there is some uncertainty, " ++ s ++ " (though this should be verified)" ∧
    express_uncertainty (4/10) s =
      "With limited confidence, it appears that " ++ s ++ " (this remains largely unconfirmed)" ∧
    express_uncertainty (2/10) s =
      "I cannot reliably confirm this, but " ++ s ++ " (please treat this as speculative)" := by
  refine ⟨?_, ?_, ?_, ?_⟩
  · have h1 : ¬((8:ℚ)/10 > 8/10) := by norm_num
    have h2 : ((8:ℚ)/10 > 6/10) := by norm_num
    simp [express_uncertainty, h1, h2]
  · have h1 : ¬((6:ℚ)/10 > 8/10) := by norm_num
    have h2 : ¬((6:ℚ)/10 > 6/10) := by norm_num
    have h3 : ((6:ℚ)/10 > 4/10) := by norm_num
    simp [express_uncertainty, h1, h2, h3]
  · have h1 : ¬((4:ℚ)/10 > 8/10) := by norm_num
    have h2 : ¬((4:ℚ)/10 > 6/10) := by norm_num
    have h3 : ¬((4:ℚ)/10 > 4/10) := by norm_num
    have h4 : ((4:ℚ)/10 > 2/10) := by norm_num
    simp [express_uncertainty, h1, h2, h3, h4]
  · have h1 : ¬((2:ℚ)/10 > 8/10) := by norm_num
    have h2 : ¬((2:ℚ)/10 > 6/10) := by norm_num
    have h3 : ¬((2:ℚ)/10 > 4/10) := by norm_num
    have h4 : ¬((2:ℚ)/10 > 2/10) := by norm_num
    simp [express_uncertainty, h1, h2, h3, h4]

/-- Counterexample to C4: starting from engagement_score = 1.0, three
consecutive failed `update_flow_state` calls leave the score at 0.4 in this
exact-rational model (0.4000000000000001 in the program's binary floats — in
either arithmetic not 0.0), refuting the claimed exact floor. -/
theorem claim_C4_cex :
    (iterate_flow .init (fun _ => "q") (fun _ => "redirect") (fun n => n) false 3).engagement_score
        = 2/5 ∧
    (iterate_flow .init (fun _ => "q") (fun _ => "redirect") (fun n => n) false 3).engagement_score
        ≠ 0 := by
  norm_num [iterate_flow, update_flow_state, ConversationFlowManager.init, min_def, max_def]

/-- C4 amended: starting from engagement_score = 1.0, three consecutive failed
calls to `ConversationFlowManager.update_flow_state` do NOT drive the score to
the 0.0 floor: it remains strictly positive, approximately 0.4 (stated as the
bounds 0.3 < score < 0.5, which also hold of the program's binary floats,
where the score after three failures is 0.4000000000000001). -/
theorem claim_C4 (q r : Nat → String) (t : Nat → Nat) :
    3/10 < (iterate_flow .init q r t false 3).engagement_score ∧
    (iterate_flow .init q r t false 3).engagement_score < 1/2 := by
  norm_num [iterate_flow, update_flow_state, ConversationFlowManager.init, min_def, max_def]

/-- Helper: 1.0 is a fixed point of the capped success update. -/
lemma update_flow_state_success_fixed (m : ConversationFlowManager) (q r : String) (t : Nat)
    (h : m.engagement_score = 1) :
    (update_flow_state m q r true t).engagement_score = 1 := by
  simp only [update_flow_state, h, if_true]
  norm_num [min_def]

/-- C5: starting from engagement_score = 1.0, any number of consecutive
successful `update_flow_state` calls keeps the score equal to 1.0 (1.0 is a
fixed point of the capped +0.1 update). -/
theorem claim_C5 (q r : Nat → String) (t : Nat → Nat) (n : Nat) :
    (iterate_flow .init q r t true n).engagement_score = 1 := by
  induction n with
  | zero => rfl
  | succ k ih => exact update_flow_state_success_fixed _ _ _ _ ih

/-! ## reasoning_framework.py — data model -/

/-- `ConversationState` enum. -/
inductive ConversationState
  | initial | political_discussion | boundary_crossed | information_synthesis | perspective_analysis
deriving Repr, DecidableEq

/-- `ReasoningStep` dataclass. -/
structure ReasoningStep where
  step_type : String
  content : String
  confidence : ℚ
  sources : List String := []
  perspectives : List String := []
  uncertainties : List String := []
deriving Repr, DecidableEq

/-- `ConversationContext` dataclass (the bounded `deque` history is a list;
its capacity plays no role in the claims below). -/
structure ConversationContext where
  state : ConversationState := .initial
  message_history : List (String × String) := []
  reasoning_chain : List ReasoningStep := []
  detected_biases : List String := []
  current_perspectives : List (String × String) := []
  confidence_level : ℚ := 1
  scope_violations : List String := []
deriving Repr, DecidableEq

/-! ## External-call environment

Each outbound LLM/HTTP call made by the pipeline is modelled by an explicit
outcome supplied in an `LLMEnv`.  `none` / `.error` means the call raised, its
JSON reply failed to decode, or a required key was missing — all of which the
Python handles in a single broad `except`; `some`/`.ok` carries the
successfully parsed reply. -/

/-- Parsed JSON reply of `ConversationalIntelligence.classify_request`. -/
structure Classification where
  in_scope : Bool
  confidence : ℚ
  reasoning : String
  scope_type : String
  suggested_response_type : String
deriving Repr, DecidableEq

/-- Parsed JSON reply of `HallucinationPreventer.reason_about_information_gaps`. -/
structure GapsReport where
  known_facts : List String
  unknown_aspects : List String
  unknowable_aspects : List String
  confidence_map : List (String × ℚ)
deriving Repr, DecidableEq

/-- Outcomes of the external calls reachable from one `process_message_async`
invocation.  For the draft-generation call, `.error ()` is a raised request,
`.ok none` a reply whose `content` is `None`, `.ok (some s)` content `s`;
`bias_reply` carries the parsed `(neutralized_response, detected_biases)`
pair, `balance_reply` the parsed reply together with the optional
`balanced_response` key, `assess_reply` the per-claim parsed confidence. -/
structure LLMEnv where
  classify_reply : Option Classification
  generation_reply : Except Unit (Option String)
  bias_reply : Option (String × List String)
  balance_reply : Option (Option String)
  search_reply : Option (List String × String)
  gaps_reply : Option GapsReport
  claims_reply : Option (List String)
  assess_reply : String → Option ℚ

/-- Python's `in` operator on strings (substring containment). -/
def strContains (text pattern : String) : Bool := decide (pattern.data <:+: text.data)

/-! ## boundary_management.py — ConversationalIntelligence -/

/-- `ConversationalIntelligence.classify_request`: without an API key, or when
the call fails, a fixed default classification is returned. -/
def classify_request (ci_api_key : Bool) (reply : Option Classification)
    (query : String) (conversation_history : List (String × String)) : Classification :=
  if !ci_api_key then
    { in_scope := true, confidence := 1/2,
      reasoning := "Cannot perform deep semantic analysis without LLM",
      scope_type := "edge_case", suggested_response_type := "clarification" }
  else
    match reply with
    | some c => c
    | none =>
      { in_scope := true, confidence := 1/2,
        reasoning := "Classification failed, defaulting to attempt help",
        scope_type := "edge_case", suggested_response_type := "clarification" }

/-- `ConversationalIntelligence.generate_graceful_redirect`. -/
def generate_graceful_redirect (query : String) (classification : Classification) : String :=
  if classification.scope_type = "out_of_scope" then
    "\n                I understand you're asking about \"" ++ query ++ "\". \n\n                Based on my analysis, this appears to be outside my specific scope of political events and policy discussions. \n                " ++ classification.reasoning ++ "\n\n                I'm designed to provide balanced, multi-perspective analysis of political events, policies, and related topics. \n                I'd be happy to discuss:\n                - Recent political developments and their implications\n                - Policy debates and different stakeholder perspectives  \n                - Political history and its relevance to current events\n                - Constitutional and legal aspects of political issues\n\n                Is there a political topic or event you'd like to explore?"
  else if classification.scope_type = "edge_case" then
    "\n                Your question about \"" ++ query ++ "\" touches on areas that may be partially within my scope.\n\n                " ++ classification.reasoning ++ "\n\n                I can provide political context and analysis for aspects of this topic. Would you like me to focus on:\n                - The political dimensions of this issue?\n                - Related policy debates or governmental responses?\n                - How different political perspectives view this topic?\n\n                What aspect would be most helpful for you?"
  else
    ""

/-- `confusion_signals` list of `detect_conversation_breakdown`. -/
def confusion_signals : List String :=
  ["don't understand", "that's not what I asked", "can you just", "why can't you",
   "this is frustrating"]

/-- `ConversationalIntelligence.detect_conversation_breakdown`. -/
def detect_conversation_breakdown (history : List (String × String))
    (current_query : String) : Bool :=
  if history.length < 2 then false
  else
    let recent_messages :=
      if history.length ≥ 3 then (history.drop (history.length - 3)).map Prod.fst else []
    if recent_messages.dedup.length = 1 ∧ recent_messages.length > 1 then true
    else confusion_signals.any (fun signal => strContains current_query.toLower signal)

/-- `ConversationalIntelligence.repair_conversation`. -/
def repair_conversation (history : List (String × String)) (issue_type : String) : String :=
  if issue_type = "confusion" then
    "\n                I sense there might be some confusion. Let me clarify what I can help with:\n\n                I'm specialized in providing balanced analysis of political events and policies. I can:\n                - Explain recent political developments from multiple perspectives\n                - Analyze policy proposals and their potential impacts\n                - Discuss political history and constitutional matters\n                - Present different viewpoints on controversial political topics\n\n                Could you rephrase your question or let me know which political topic interests you?"
  else if issue_type = "repetition" then
    "\n                I notice we might be going in circles. Let me try a different approach.\n\n                What specific aspect of political events or policy would you like to explore? \n                For example:\n                - A recent political development you'd like understood\n                - A policy debate you want analyzed from different angles\n                - A political process or system you'd like explained\n\n                How can I best help you with political analysis today?"
  else
    "Let me help you with political analysis. What would you like to know?"

/-- `topic_relations` dictionary of `ConversationFlowManager.suggest_next_topics`
(insertion order preserved, as in the Python dict). -/
def topic_relations : List (String × List String) :=
  [("election",
    ["How do different voting systems work?",
     "What are the key policy differences between parties?",
     "How has campaign finance evolved?"]),
   ("policy",
    ["What are the main arguments for and against this policy?",
     "How do similar policies work in other countries?",
     "What are the implementation challenges?"]),
   ("supreme_court",
    ["How does the judicial nomination process work?",
     "What are the different judicial philosophies?",
     "How do court decisions impact policy?"])]

/-- `ConversationFlowManager.suggest_next_topics`. -/
def suggest_next_topics (current_topic : String) : List String :=
  match topic_relations.find? (fun kv => strContains current_topic.toLower kv.1) with
  | some kv => kv.2
  | none =>
    ["What recent political development would you like to understand?",
     "Any policy debate you'd like analyzed from multiple angles?",
     "Questions about how political processes work?"]

/-! ## bias_mitigation.py — BiasDetector -/

/-- `BiasDetector.detect_mitigate_bias`: on any failure of the call (raised
request, content `None`, undecodable JSON, missing key) the broad `except`
returns the text unchanged together with an empty bias list. -/
def detect_mitigate_bias (reply : Option (String × List String)) (text : String) :
    String × List String :=
  match reply with
  | some parsed => parsed
  | none => (text, [])

/-- `BiasDetector.ensure_perspective_balance`: the outer `Option` is the broad
`except` (degrading to `initial_response`); the inner one is
`result.get('balanced_response', initial_response)`. -/
def ensure_perspective_balance (reply : Option (Option String))
    (topic initial_response : String) : String :=
  match reply with
  | some parsed => parsed.getD initial_response
  | none => initial_response

/-! ## hallucination_prevention.py — InformationValidator / HallucinationPreventer -/

/-- Reply dictionary shape of `InformationValidator.search_information`. -/
structure SearchReport where
  success : Bool
  message : Option String
  results : Option (List String)
  answer : Option String
  fallback : Option Bool
deriving Repr, DecidableEq

/-- `InformationValidator.search_information`. -/
def search_information (tavily_api_key : Bool) (reply : Option (List String × String))
    (query : String) : SearchReport :=
  if !tavily_api_key then
    { success := false, message := some "Search unavailable - using reasoning only",
      results := none, answer := none, fallback := some true }
  else
    match reply with
    | some (results, answer) =>
      { success := true, message := none, results := some results,
        answer := some answer, fallback := none }
    | none =>
      { success := false, message := none, results := none, answer := none,
        fallback := some true }

/-- `HallucinationPreventer.reason_about_information_gaps`. -/
def reason_about_information_gaps (api_key : Bool) (reply : Option GapsReport)
    (query : String) : GapsReport :=
  if !api_key then
    { known_facts := [], unknown_aspects := ["API key required for reasoning"],
      unknowable_aspects := [], confidence_map := [] }
  else
    match reply with
    | some g => g
    | none =>
      { known_facts := [], unknown_aspects := ["Analysis failed"],
        unknowable_aspects := [], confidence_map := [] }

/-- Sentence-splitting fallback of `extract_claims`:
`[s for s in text.split('. ') if len(s) > 20]`. -/
def extract_claims_fallback (text : String) : List String :=
  (text.splitOn ". ").filter (fun s => s.length > 20)

/-- `HallucinationPreventer.extract_claims`. -/
def extract_claims (api_key : Bool) (reply : Option (List String)) (text : String) :
    List String :=
  if !api_key then extract_claims_fallback text
  else
    match reply with
    | some claims => claims
    | none => extract_claims_fallback text

/-- `HallucinationPreventer.assess_claim_confidence`: 0.5 without an API key
and on every failure path. -/
def assess_claim_confidence (api_key : Bool) (reply : Option ℚ)
    (claim context : String) : ℚ :=
  if !api_key then 1/2
  else
    match reply with
    | some confidence => confidence
    | none => 1/2

/-- `HallucinationPreventer.add_uncertainty_to_claim`: `uncertainty_marker` is
`express_uncertainty(confidence, "")` (both band markers around the empty
statement); Python's `str.replace` replaces every occurrence. -/
def add_uncertainty_to_claim (text claim : String) (confidence : ℚ) : String :=
  let uncertainty_marker := express_uncertainty confidence ""
  if strContains text claim then text.replace claim (uncertainty_marker ++ claim)
  else text

/-- `HallucinationPreventer.prevent_hallucination`: the Python `for` loop over
the extracted claims, threading `validated_response`, is a left fold. -/
def prevent_hallucination (api_key : Bool) (claims_reply : Option (List String))
    (assess_reply : String → Option ℚ) (query initial_response : String) : String :=
  let claims := extract_claims api_key claims_reply initial_response
  claims.foldl
    (fun validated_response claim =>
      let confidence := assess_claim_confidence api_key (assess_reply claim) claim query
      if confidence < 1/2 then add_uncertainty_to_claim validated_response claim confidence
      else validated_response)
    initial_response

/-! ## agent.py — PoliticalChatbotAgent

The agent's mutable attributes touched by the claims are `self.context` and
`self.flow_manager`, bundled as `AgentState`.  `self.bias_detector` is present
iff an API key was supplied to the constructor; `has_bias_detector`,
`api_key`, `tavily_api_key` and `ci_api_key` (the key held by
`self.conversational_intelligence`) are passed explicitly. -/

/-- Mutable agent state threaded through the pipeline. -/
structure AgentState where
  context : ConversationContext
  flow : ConversationFlowManager
deriving Repr, DecidableEq

/-- `PoliticalChatbotAgent.create_reasoning_step`. -/
def create_reasoning_step (st : AgentState) (step_type content : String)
    (confidence : ℚ) : AgentState :=
  { st with context :=
      { st.context with reasoning_chain :=
          st.context.reasoning_chain ++
            [{ step_type := step_type, content := content, confidence := confidence }] } }

/-- `PoliticalChatbotAgent.apply_bias_mitigation`: returns the
(mitigated text, detected biases) pair and the updated agent state. -/
def apply_bias_mitigation (has_bias_detector : Bool) (reply : Option (String × List String))
    (st : AgentState) (response : String) : (String × List String) × AgentState :=
  if !has_bias_detector then ((response, []), st)
  else
    let mitigated := detect_mitigate_bias reply response
    let st1 := { st with context :=
        { st.context with detected_biases := st.context.detected_biases ++ mitigated.2 } }
    let st2 := create_reasoning_step st1 "bias_mitigation"
      ("Detected and corrected " ++ toString mitigated.2.length ++ " potential biases") (4/5)
    (mitigated, st2)

/-- Embeds Python's `f"{confidence:.2f}"` for the non-negative values arising
in this pipeline (rounding half up; the only value reaching this format here
is 0.5, far from a rounding midpoint at two decimals). -/
def format_2f (x : ℚ) : String :=
  let cents : Int := (x * 100 + 1/2).floor
  let frac := (cents % 100).toNat
  toString (cents / 100) ++ "." ++ (if frac < 10 then "0" else "") ++ toString frac

/-- `PoliticalChatbotAgent.validate_and_ground_response`: the search and gap
reports are computed and dropped (only logged in Python); the response is put
through `prevent_hallucination`, then wrapped by `express_uncertainty` at the
hard-coded `calculate_confidence("secondary", 7, "divided")`. -/
def validate_and_ground_response (api_key tavily_api_key : Bool) (env : LLMEnv)
    (st : AgentState) (query response : String) : String × AgentState :=
  let _search_results := search_information tavily_api_key env.search_reply query
  let _gaps := reason_about_information_gaps api_key env.gaps_reply query
  let validated := prevent_hallucination api_key env.claims_reply env.assess_reply query response
  let confidence := calculate_confidence "secondary" 7 "divided"
  let final_response := express_uncertainty confidence validated
  let st1 := create_reasoning_step st "hallucination_prevention"
    ("Applied uncertainty calibration (confidence: " ++ format_2f confidence ++ ")") confidence
  (final_response, st1)

/-- `PoliticalChatbotAgent.handle_query`: classification, then redirect with
appended topic suggestions when out of scope, repair on breakdown, else
`None`; `datetime.now()` inside `update_flow_state` is the abstract `now`. -/
def handle_query (ci_api_key : Bool) (env : LLMEnv) (st : AgentState)
    (query : String) (history : List (String × String)) (now : Nat) :
    Option String × AgentState :=
  let classification := classify_request ci_api_key env.classify_reply query history
  let st1 := create_reasoning_step st "boundary_classification"
    classification.reasoning classification.confidence
  if !classification.in_scope then
    let redirect := generate_graceful_redirect query classification
    let st2 := { st1 with flow := update_flow_state st1.flow query "redirect" false now }
    let suggestions := suggest_next_topics "general"
    let redirect :=
      if redirect ≠ "" then
        redirect ++ "\n\nSome topics you might find interesting:\n" ++
          String.join (suggestions.map (fun s => "- " ++ s ++ "\n"))
      else redirect
    (some redirect, st2)
  else if detect_conversation_breakdown history query then
    let repair := repair_conversation history "confusion"
    let st2 := { st1 with flow := update_flow_state st1.flow query "repair" true now }
    (some repair, st2)
  else
    (none, st1)

/-- The two raising paths of `process_message_async`:
`raise ValueError('Initial prompt connection failed.')` in the bare `except`
around the draft-generation call, and
`raise ValueError("Model returned no content")` on `None` content. -/
inductive PipelineError
  | initial_prompt_connection_failed
  | model_returned_no_content
deriving Repr, DecidableEq

/-- Straight-line continuation of `process_message_async` after the boundary
check: reasoning step, state transition, draft generation (raising on call
failure and on empty content), bias mitigation and perspective balancing when
a bias detector is configured, then validation and grounding. -/
def generation_pipeline (api_key tavily_api_key has_bias_detector : Bool) (env : LLMEnv)
    (st : AgentState) (message : String) : Except PipelineError String × AgentState :=
  let st1 := create_reasoning_step st "query_analysis"
    ("Analyzing query: " ++ message) (7/10)
  let st2 := { st1 with context := { st1.context with state := .political_discussion } }
  match env.generation_reply with
  | .error _ => (.error .initial_prompt_connection_failed, st2)
  | .ok none => (.error .model_returned_no_content, st2)
  | .ok (some initial_response) =>
    if has_bias_detector then
      let mitigation := apply_bias_mitigation true env.bias_reply st2 initial_response
      let balanced_response := ensure_perspective_balance env.balance_reply message mitigation.1.1
      let validated := validate_and_ground_response api_key tavily_api_key env mitigation.2
        message balanced_response
      (.ok validated.1, validated.2)
    else
      let balanced_response := initial_response
      let validated := validate_and_ground_response api_key tavily_api_key env st2
        message balanced_response
      (.ok validated.1, validated.2)

/-- `PoliticalChatbotAgent.process_message_async`: boundary management first;
a truthy (non-empty) boundary response is returned as is, a falsy one
(Python `None` or `""`) falls through to the generation pipeline. -/
def process_message_async (ci_api_key api_key tavily_api_key has_bias_detector : Bool)
    (env : LLMEnv) (st : AgentState) (message : String)
    (history : List (String × String)) (now : Nat) :
    Except PipelineError String × AgentState :=
  let boundary := handle_query ci_api_key env st message history now
  match boundary.1 with
  | some boundary_response =>
    if boundary_response ≠ "" then (.ok boundary_response, boundary.2)
    else generation_pipeline api_key tavily_api_key has_bias_detector env boundary.2 message
  | none => generation_pipeline api_key tavily_api_key has_bias_detector env boundary.2 message

/-! ## Claims C6 - C10 -/

/-- Helper: the hard-coded calibration point of `validate_and_ground_response`. -/
lemma calculate_confidence_hardcoded : calculate_confidence "secondary" 7 "divided" = 1/2 := by
  simp +decide only [calculate_confidence, source_scores, consensus_adjustments, temporal_factor]
  norm_num [min_def, max_def]

/-- Helper: the uncertainty band selected at confidence 0.5. -/
lemma express_uncertainty_half (s : String) :
    express_uncertainty (1/2) s =
      "While there is some uncertainty, " ++ s ++ " (though this should be verified)" := by
  unfold express_uncertainty
  rw [if_neg (by norm_num), if_neg (by norm_num), if_pos (by norm_num)]

/-- Helper: every failure path of `assess_claim_confidence` yields 0.5. -/
lemma assess_claim_confidence_none (api_key : Bool) (claim context : String) :
    assess_claim_confidence api_key none claim context = 1/2 := by
  cases api_key <;> rfl

/-- Helper: when every per-claim confidence call fails, `prevent_hallucination`
leaves the response unchanged (0.5 is not < 0.5). -/
lemma prevent_hallucination_no_assess (api_key : Bool) (claims_reply : Option (List String))
    (query initial_response : String) :
    prevent_hallucination api_key claims_reply (fun _ => none) query initial_response
      = initial_response := by
  have key : ∀ (claims : List String) (acc : String),
      claims.foldl
        (fun validated_response claim =>
          let confidence := assess_claim_confidence api_key ((fun _ => none) claim) claim query
          if confidence < 1/2 then add_uncertainty_to_claim validated_response claim confidence
          else validated_response) acc = acc := by
    intro claims
    induction claims with
    | nil => intro acc; rfl
    | cons c cs ih =>
      intro acc
      rw [List.foldl_cons]
      have h : assess_claim_confidence api_key ((fun _ => none) c) c query = 1/2 :=
        assess_claim_confidence_none api_key c query
      simp only [h, lt_self_iff_false, if_false]
      exact ih acc
  unfold prevent_hallucination
  exact key _ initial_response

/-- Helper: error characterization of the straight-line generation pipeline:
it raises exactly on a failed draft-generation request or on `None` content. -/
lemma generation_pipeline_error_iff (api_key tavily_api_key has_bias_detector : Bool)
    (env : LLMEnv) (st : AgentState) (message : String) (e : PipelineError) :
    (generation_pipeline api_key tavily_api_key has_bias_detector env st message).1 = .error e
      ↔ ((env.generation_reply = .error () ∧ e = .initial_prompt_connection_failed)
        ∨ (env.generation_reply = .ok none ∧ e = .model_returned_no_content)) := by
  unfold generation_pipeline
  cases hg : env.generation_reply with
  | error u => cases u; simp [hg, eq_comm]
  | ok o =>
    cases o with
    | none => simp [hg, eq_comm]
    | some s => cases has_bias_detector <;> simp [hg]

/-- Helper: with a falsy (absent or empty) boundary response,
`process_message_async` proceeds with the generation pipeline. -/
lemma process_of_boundary_falsy (ci_api_key api_key tavily_api_key has_bias_detector : Bool)
    (env : LLMEnv) (st : AgentState) (message : String)
    (history : List (String × String)) (now : Nat)
    (h : (handle_query ci_api_key env st message history now).1.getD "" = "") :
    process_message_async ci_api_key api_key tavily_api_key has_bias_detector
        env st message history now
      = generation_pipeline api_key tavily_api_key has_bias_detector env
          (handle_query ci_api_key env st message history now).2 message := by
  unfold process_message_async
  cases hb : (handle_query ci_api_key env st message history now).1 with
  | none => simp only [hb]
  | some s =>
    rw [hb] at h
    simp only [Option.getD_some] at h
    simp only [hb, h, ne_eq, not_true_eq_false, if_false]

/-- C6 amended: in `process_message_async`, when the boundary response is
falsy, the pipeline raises exactly in two cases — a failed draft-generation
request (`ValueError('Initial prompt connection failed.')`, a re-raise inside
the `except` handler, so this external-call failure is NOT swallowed) and
`None` model content (`ValueError("Model returned no content")`); every other
external-call failure (classification, bias mitigation, perspective
balancing, search, gap analysis, claim extraction, claim assessment) is
swallowed and the pipeline still returns a result. -/
theorem claim_C6 (ci_api_key api_key tavily_api_key has_bias_detector : Bool)
    (env : LLMEnv) (st : AgentState) (message : String)
    (history : List (String × String)) (now : Nat) (e : PipelineError) :
    (process_message_async ci_api_key api_key tavily_api_key has_bias_detector
        env st message history now).1 = .error e
      ↔ ((handle_query ci_api_key env st message history now).1.getD "" = ""
          ∧ ((env.generation_reply = .error () ∧ e = .initial_prompt_connection_failed)
            ∨ (env.generation_reply = .ok none ∧ e = .model_returned_no_content))) := by
  by_cases h : (handle_query ci_api_key env st message history now).1.getD "" = ""
  · rw [process_of_boundary_falsy ci_api_key api_key tavily_api_key has_bias_detector
      env st message history now h]
    rw [generation_pipeline_error_iff]
    simp [h]
  · unfold process_message_async
    cases hb : (handle_query ci_api_key env st message history now).1 with
    | none => rw [hb] at h; simp at h
    | some s =>
      rw [hb] at h
      simp only [Option.getD_some] at h
      simp only [hb, ne_eq, h, not_false_eq_true, if_true]
      simp [h]

/-- Counterexample to C6: a failed draft-generation request is not swallowed —
`process_message_async` raises `'Initial prompt connection failed.'`, a
second raising path distinct from the empty-content one, instead of returning
the input unmodified. -/
theorem claim_C6_cex :
    (process_message_async false true false true
        { classify_reply := none, generation_reply := .error (), bias_reply := none,
          balance_reply := none, search_reply := none, gaps_reply := none,
          claims_reply := none, assess_reply := fun _ => none }
        { context := {}, flow := .init } "Tell me about the debt ceiling" [] 0).1
      = .error .initial_prompt_connection_failed ∧
    PipelineError.initial_prompt_connection_failed ≠ .model_returned_no_content := by
  exact ⟨rfl, by decide⟩

/-- C7: when the bias-mitigation call fails (raised request or undecodable
JSON, modelled by reply `none`), `apply_bias_mitigation` returns the pair
(text, []) — the original text unchanged and an empty bias list. -/
theorem claim_C7 (text : String) (st : AgentState) :
    (apply_bias_mitigation true none st text).1 = (text, []) := rfl

/-- Helper: a concatenation whose left part is non-empty is non-empty. -/
lemma append_ne_empty_left (a b : String) (h : a ≠ "") : a ++ b ≠ "" := by
  intro hab
  apply h
  have hd := congrArg String.data hab
  simp only [String.data_append] at hd
  rcases List.append_eq_nil.mp hd with ⟨h1, -⟩
  exact String.ext h1

/-- The boundary response assembled by `handle_query` for a not-in-scope
classification with a non-empty redirect template: the graceful redirect plus
the static topic suggestions.  It is built from the query, the classification
and fixed template text only — no generated draft response occurs in it. -/
def redirect_with_suggestions (query : String) (classification : Classification) : String :=
  generate_graceful_redirect query classification ++
    "\n\nSome topics you might find interesting:\n" ++
    String.join ((suggest_next_topics "general").map (fun s => "- " ++ s ++ "\n"))

/-- Helper: for scope types `out_of_scope` and `edge_case` the redirect
template is non-empty (truthy in Python). -/
lemma generate_graceful_redirect_ne_empty (query : String) (cl : Classification)
    (h : cl.scope_type = "out_of_scope" ∨ cl.scope_type = "edge_case") :
    generate_graceful_redirect query cl ≠ "" := by
  unfold generate_graceful_redirect
  rcases h with h | h
  · rw [if_pos h]
    exact append_ne_empty_left _ _ (append_ne_empty_left _ _ (append_ne_empty_left _ _
      (append_ne_empty_left _ _ (by decide))))
  · rw [if_neg (by rw [h]; decide), if_pos h]
    exact append_ne_empty_left _ _ (append_ne_empty_left _ _ (append_ne_empty_left _ _
      (append_ne_empty_left _ _ (by decide))))

/-- Helper: `handle_query` on a not-in-scope classification with redirecting
scope type returns the redirect with appended suggestions. -/
lemma handle_query_redirect (env : LLMEnv) (st : AgentState) (query : String)
    (history : List (String × String)) (now : Nat) (cl : Classification)
    (hcl : env.classify_reply = some cl) (h1 : cl.in_scope = false)
    (h2 : cl.scope_type = "out_of_scope" ∨ cl.scope_type = "edge_case") :
    (handle_query true env st query history now).1
      = some (redirect_with_suggestions query cl) := by
  have hne := generate_graceful_redirect_ne_empty query cl h2
  simp [handle_query, classify_request, hcl, h1, hne, redirect_with_suggestions]

/-- Helper: the first component of `validate_and_ground_response` is the
uncertainty-wrapped output of `prevent_hallucination`. -/
lemma validate_and_ground_response_fst (api_key tavily_api_key : Bool) (env : LLMEnv)
    (st : AgentState) (query response : String) :
    (validate_and_ground_response api_key tavily_api_key env st query response).1
      = express_uncertainty (calculate_confidence "secondary" 7 "divided")
          (prevent_hallucination api_key env.claims_reply env.assess_reply query response) := rfl

/-- Helper: result of the generation pipeline when generation succeeds and the
bias and balance calls fail (degrade to identity). -/
lemma generation_pipeline_fst (api_key tavily_api_key has_bias_detector : Bool)
    (env : LLMEnv) (st : AgentState) (message c : String)
    (hg : env.generation_reply = .ok (some c))
    (hb : env.bias_reply = none) (hbal : env.balance_reply = none) :
    (generation_pipeline api_key tavily_api_key has_bias_detector env st message).1
      = .ok (express_uncertainty (calculate_confidence "secondary" 7 "divided")
          (prevent_hallucination api_key env.claims_reply env.assess_reply message c)) := by
  unfold generation_pipeline
  rw [hg, hb, hbal]
  cases has_bias_detector <;> rfl

/-- C8 amended: when the boundary classification returns in_scope = False with
scope_type `out_of_scope` or `edge_case`, processing the message returns the
redirect string `redirect_with_suggestions query cl` — a value assembled
solely from the query, the classification and fixed template text (so it
contains no model-generated political content) — and that string contains the
literal query text. -/
theorem claim_C8 (api_key tavily_api_key has_bias_detector : Bool) (env : LLMEnv)
    (st : AgentState) (query : String) (history : List (String × String)) (now : Nat)
    (cl : Classification)
    (hcl : env.classify_reply = some cl) (h1 : cl.in_scope = false)
    (h2 : cl.scope_type = "out_of_scope" ∨ cl.scope_type = "edge_case") :
    (process_message_async true api_key tavily_api_key has_bias_detector env st query
        history now).1 = .ok (redirect_with_suggestions query cl) ∧
    ∃ a b : String, redirect_with_suggestions query cl = a ++ query ++ b := by
  have hq := handle_query_redirect env st query history now cl hcl h1 h2
  have hne : redirect_with_suggestions query cl ≠ "" :=
    append_ne_empty_left _ _ (append_ne_empty_left _ _
      (generate_graceful_redirect_ne_empty query cl h2))
  constructor
  · simp only [process_message_async, hq, ne_eq, hne, not_false_eq_true, if_true]
  · rcases h2 with h | h
    · refine ⟨"\n                I understand you're asking about \"",
        "\". \n\n                Based on my analysis, this appears to be outside my specific scope of political events and policy discussions. \n                "
          ++ cl.reasoning
          ++ "\n\n                I'm designed to provide balanced, multi-perspective analysis of political events, policies, and related topics. \n                I'd be happy to discuss:\n                - Recent political developments and their implications\n                - Policy debates and different stakeholder perspectives  \n                - Political history and its relevance to current events\n                - Constitutional and legal aspects of political issues\n\n                Is there a political topic or event you'd like to explore?"
          ++ "\n\nSome topics you might find interesting:\n"
          ++ String.join ((suggest_next_topics "general").map (fun s => "- " ++ s ++ "\n")), ?_⟩
      simp +decide [redirect_with_suggestions, generate_graceful_redirect, h, String.append_assoc]
    · refine ⟨"\n                Your question about \"",
        "\" touches on areas that may be partially within my scope.\n\n                "
          ++ cl.reasoning
          ++ "\n\n                I can provide political context and analysis for aspects of this topic. Would you like me to focus on:\n                - The political dimensions of this issue?\n                - Related policy debates or governmental responses?\n                - How different political perspectives view this topic?\n\n                What aspect would be most helpful for you?"
          ++ "\n\nSome topics you might find interesting:\n"
          ++ String.join ((suggest_next_topics "general").map (fun s => "- " ++ s ++ "\n")), ?_⟩
      simp +decide [redirect_with_suggestions, generate_graceful_redirect, h, String.append_assoc]

/-! Concrete fixtures used by witnesses and counterexamples. -/

/-- A classification reply marking a query out of scope. -/
def classification_out_of_scope : Classification :=
  ⟨false, 9/10, "This is not political.", "out_of_scope", "redirect"⟩

/-- Environment whose classification call parses to
`classification_out_of_scope`; every other call fails. -/
def env_out_of_scope : LLMEnv :=
  ⟨some classification_out_of_scope, .ok (some "unused draft"), none, none, none, none,
   none, fun _ => none⟩

/-- A classification reply with in_scope = False but a scope type that is
neither `out_of_scope` nor `edge_case`. -/
def classification_not_redirecting : Classification :=
  ⟨false, 9/10, "Low relevance.", "political_analysis", "full_analysis"⟩

/-- Environment whose classification call parses to
`classification_not_redirecting`, whose draft generation succeeds, and whose
remaining calls fail. -/
def env_not_redirecting : LLMEnv :=
  ⟨some classification_not_redirecting, .ok (some "The fiscal policy debate continues."),
   none, none, none, none, none, fun _ => none⟩

/-- The fresh agent state built by `PoliticalChatbotAgent.__init__`. -/
def AgentState.fresh : AgentState := ⟨{}, .init⟩

/-- Witness for C8 at the spec's end-to-end example: a weather query
classified out of scope. -/
theorem claim_C8_witness :
    (process_message_async true true false true env_out_of_scope AgentState.fresh
        "What's the weather like today?" [] 0).1
      = .ok (redirect_with_suggestions "What's the weather like today?"
          classification_out_of_scope) ∧
    ∃ a b : String,
      redirect_with_suggestions "What's the weather like today?" classification_out_of_scope
        = a ++ "What's the weather like today?" ++ b :=
  claim_C8 true false true env_out_of_scope AgentState.fresh
    "What's the weather like today?" [] 0 classification_out_of_scope
    rfl rfl (Or.inl rfl)

set_option maxRecDepth 8192 in
/-- Counterexample to C8 as stated: a classification with in_scope = False but
scope_type "political_analysis" yields an empty redirect, which is falsy, so
the full generation pipeline runs and its model-generated output — not a
redirect containing the query — is returned. -/
theorem claim_C8_cex :
    (process_message_async true true false true env_not_redirecting AgentState.fresh
        "What's the weather like today?" [] 0).1
      = .ok "While there is some uncertainty, The fiscal policy debate continues. (though this should be verified)" ∧
    strContains
      "While there is some uncertainty, The fiscal policy debate continues. (though this should be verified)"
      "What's the weather like today?" = false := by
  constructor
  · rw [process_of_boundary_falsy true true false true env_not_redirecting AgentState.fresh
      "What's the weather like today?" [] 0 (by rfl)]
    rw [generation_pipeline_fst true false true env_not_redirecting _
      "What's the weather like today?" "The fiscal policy debate continues." rfl rfl rfl]
    rw [calculate_confidence_hardcoded]
    rw [show prevent_hallucination true env_not_redirecting.claims_reply
          env_not_redirecting.assess_reply "What's the weather like today?"
          "The fiscal policy debate continues."
        = "The fiscal policy debate continues."
      from prevent_hallucination_no_assess true none "What's the weather like today?"
        "The fiscal policy debate continues."]
    rw [express_uncertainty_half]
    rfl
  · decide

/-- C9: for a classification with in_scope = False whose scope_type is neither
`out_of_scope` nor `edge_case`, `generate_graceful_redirect` returns the
empty string, `handle_query` returns that empty string, and
`process_message_async` treats it as falsy and proceeds with the full
generation pipeline instead of redirecting. -/
theorem claim_C9 (api_key tavily_api_key has_bias_detector : Bool) (env : LLMEnv)
    (st : AgentState) (query : String) (history : List (String × String)) (now : Nat)
    (cl : Classification)
    (hcl : env.classify_reply = some cl) (h1 : cl.in_scope = false)
    (h2 : cl.scope_type ≠ "out_of_scope") (h3 : cl.scope_type ≠ "edge_case") :
    generate_graceful_redirect query cl = "" ∧
    (handle_query true env st query history now).1 = some "" ∧
    process_message_async true api_key tavily_api_key has_bias_detector env st query
        history now
      = generation_pipeline api_key tavily_api_key has_bias_detector env
          (handle_query true env st query history now).2 query := by
  have hred : generate_graceful_redirect query cl = "" := by
    unfold generate_graceful_redirect
    rw [if_neg h2, if_neg h3]
  have hq : (handle_query true env st query history now).1 = some "" := by
    simp [handle_query, classify_request, hcl, h1, hred]
  exact ⟨hred, hq,
    process_of_boundary_falsy true api_key tavily_api_key has_bias_detector env st query
      history now (by rw [hq]; rfl)⟩

/-- Witness for C9: a concrete in_scope = False classification with
scope_type "political_analysis". -/
theorem claim_C9_witness :
    generate_graceful_redirect "What's the weather like today?"
        classification_not_redirecting = "" ∧
    (handle_query true env_not_redirecting AgentState.fresh
        "What's the weather like today?" [] 0).1 = some "" ∧
    process_message_async true true false true env_not_redirecting AgentState.fresh
        "What's the weather like today?" [] 0
      = generation_pipeline true false true env_not_redirecting
          (handle_query true env_not_redirecting AgentState.fresh
            "What's the weather like today?" [] 0).2
          "What's the weather like today?" :=
  claim_C9 true false true env_not_redirecting AgentState.fresh
    "What's the weather like today?" [] 0 classification_not_redirecting
    rfl rfl (by decide) (by decide)

/-- C10: with a bias detector configured, every call to
`apply_bias_mitigation` updates the conversation context — it extends
`detected_biases` by the detected list and appends exactly one
`ReasoningStep` with step_type "bias_mitigation" and confidence 0.8 — and it
does so also on the degraded failure path (reply `none`), where the text
comes back unchanged with an empty bias list but the reasoning step is still
appended: the degrade is not atomic with respect to the context state. -/
theorem claim_C10 (reply : Option (String × List String)) (st : AgentState)
    (response : String) :
    ((apply_bias_mitigation true reply st response).2.context.detected_biases
        = st.context.detected_biases ++ (detect_mitigate_bias reply response).2 ∧
      (apply_bias_mitigation true reply st response).2.context.reasoning_chain
        = st.context.reasoning_chain ++
            [{ step_type := "bias_mitigation",
               content := "Detected and corrected " ++
                 toString (detect_mitigate_bias reply response).2.length ++
                 " potential biases",
               confidence := 4/5 }]) ∧
    ((apply_bias_mitigation true none st response).1 = (response, []) ∧
      (apply_bias_mitigation true none st response).2.context.detected_biases
        = st.context.detected_biases ∧
      (apply_bias_mitigation true none st response).2.context.reasoning_chain
        = st.context.reasoning_chain ++
            [{ step_type := "bias_mitigation",
               content := "Detected and corrected 0 potential biases",
               confidence := 4/5 }]) := by
  refine ⟨⟨rfl, rfl⟩, rfl, ?_, ?_⟩
  · show st.context.detected_biases ++ ([] : List String) = st.context.detected_biases
    simp
  · simp only [apply_bias_mitigation, create_reasoning_step, detect_mitigate_bias,
      Bool.not_true, if_false, List.append_cancel_left_eq]
    rfl
